import Mathlib

/-!
Shallow embedding of the aws-bootstrap-g4dn tool (`aws_bootstrap/ec2.py`,
`aws_bootstrap/ssh.py`, `aws_bootstrap/quota.py`, `aws_bootstrap/cli.py`).

External AWS API calls are modelled as oracles (function parameters) or as
pure filters over an explicit catalog of AWS-side resources; the AWS-side
filter semantics of `describe_images` / `describe_instances` /
`describe_volumes` are modelled from the AWS API reference (tag filters
match when any tag with the key has the value; name filters are glob
patterns over `*` and `?`).  Python strings are Lean `String`s; Python
string comparison (used as a sort key for AMI creation dates) is modelled
by `strLe`, lexicographic comparison of code points.  `click` echo/confirm
calls are modelled by boolean inputs; raised `CLIError`s become the
`CLIErr` inductive, one constructor per raise site, carrying the data that
is interpolated into the message.
-/

namespace AwsBootstrap

/-- An AWS resource tag (a `{"Key": ..., "Value": ...}` dict entry). -/
structure Tag where
  key : String
  value : String
deriving DecidableEq, Repr

/-- A botocore `ClientError`, reduced to its error code and message. -/
structure AwsError where
  code : String
  message : String
deriving DecidableEq, Repr

/-- The tool's `CLIError` raise sites, one constructor per site, carrying the
data interpolated into the human-readable message. -/
inductive CLIErr where
  | noAmiFound (amiFilter : String)
  | noDefaultVpc
  | quotaExceeded (label quotaType family instanceType region : String)
  | insufficientCapacity (instanceType region : String)
  | insufficientCapacityBoth (instanceType region : String)
  | launchCancelled
  | sshKeyNotFound
  | ebsOptionsMutuallyExclusive
  | volumeNotFound (volumeId : String)
  | volumeNotAvailable (volumeId state : String)
  | volumeWrongAz (volumeId volumeAz instanceAz : String)
  | yesRequiredForStructuredOutput
  | desiredNotGreater (desired current : Rat)
  | quotaNotFound (quotaCode : String)
  | quotaRequestAlreadyPending
  | invalidQuotaArgument (message : String)
deriving DecidableEq, Repr

/-- An error escaping one of the embedded functions: either a raised
`CLIError` or a propagated botocore `ClientError` (a bare `raise`). -/
inductive ToolError where
  | cli (e : CLIErr)
  | aws (e : AwsError)
deriving DecidableEq, Repr

/-- Lexicographic comparison of code-point lists; models Python `str`
comparison, which the code relies on when sorting ISO-8601 creation dates. -/
def lexLe : List Char → List Char → Bool
  | [], _ => true
  | _ :: _, [] => false
  | a :: as, b :: bs =>
    if a.toNat = b.toNat then lexLe as bs else decide (a.toNat < b.toNat)

/-- Python string `<=`, by code points. -/
def strLe (a b : String) : Bool :=
  lexLe a.data b.data

/-- Glob matching for AWS name filters: `*` matches any run of characters,
`?` a single character (modelled from the AWS `describe_images` filter
semantics). -/
def globChars : List Char → List Char → Bool
  | [], [] => true
  | [], _ :: _ => false
  | p :: ps, [] => if p = '*' then globChars ps [] else false
  | p :: ps, c :: cs =>
    if p = '*' then globChars ps (c :: cs) || globChars (p :: ps) cs
    else if p = '?' then globChars ps cs
    else (p = c) && globChars ps cs
termination_by ps cs => (ps.length, cs.length)

/-- Glob matching on strings. -/
def globMatch (pattern s : String) : Bool :=
  globChars pattern.data s.data

/-- Python `s.startswith(p)` for a single prefix string. -/
def strStartsWith (s p : String) : Bool :=
  p.data.isPrefixOf s.data

/-- Python `s.split(sep, maxsplit=1)[0]` for a single-character separator:
everything before the first occurrence of the separator. -/
def strBefore (s : String) (sep : Char) : String :=
  ⟨s.data.takeWhile fun c => !(c == sep)⟩

/-- True when some tag in the list has the given key and value; models the
AWS-side semantics of a `tag:<key>` filter. -/
def hasTag (tags : List Tag) (key value : String) : Bool :=
  tags.any fun t => t.key == key && t.value == value

/-- Value of the first tag with the given key, or `""`; models
`next((tag["Value"] for tag in tags if tag["Key"] == key), "")`. -/
def firstTagValue (tags : List Tag) (key : String) : String :=
  ((tags.find? fun t => t.key == key).map Tag.value).getD ""

/-- Value of the last tag with the given key, or `""`; models
`{t["Key"]: t["Value"] for t in tags}.get(key, "")` (later dict entries win). -/
def lastTagValue (tags : List Tag) (key : String) : String :=
  ((tags.reverse.find? fun t => t.key == key).map Tag.value).getD ""

/-- An EC2 machine image as held on the AWS side and as returned (as a dict)
by `describe_images`. -/
structure Image where
  imageId : String
  name : String
  state : String
  architecture : String
  creationDate : String
  ownerId : String
deriving DecidableEq, Repr, Inhabited

/-- The `_OWNER_HINTS` table of `ec2.py`: well-known AMI owners by name
prefix, in source order. -/
def OWNER_HINTS : List (String × List String) :=
  [("Deep Learning", ["amazon"]),
   ("ubuntu", ["099720109477"]),
   ("Ubuntu", ["099720109477"]),
   ("RHEL", ["309956199498"]),
   ("al20", ["amazon"])]

/-- The owner-inference loop shared (textually identical) by
`get_latest_ami` and `list_amis`: the first hint whose prefix starts the
filter wins, otherwise no owner restriction. -/
def inferOwners (amiFilter : String) : Option (List String) :=
  (OWNER_HINTS.find? fun h => strStartsWith amiFilter h.1).map Prod.snd

/-- The request sent to `describe_images`: name/state/architecture filters
plus the optional `Owners` restriction. -/
structure DescribeImagesParams where
  nameFilter : String
  stateFilter : List String
  archFilter : List String
  owners : Option (List String)
deriving DecidableEq, Repr

/-- The `describe_images` request built by `get_latest_ami`. -/
def get_latest_ami_request (amiFilter : String) : DescribeImagesParams :=
  { nameFilter := amiFilter
    stateFilter := ["available"]
    archFilter := ["x86_64"]
    owners := inferOwners amiFilter }

/-- The `describe_images` request built by `list_amis` (the construction in
the source is textually identical to the one in `get_latest_ami`). -/
def list_amis_request (amiFilter : String) : DescribeImagesParams :=
  { nameFilter := amiFilter
    stateFilter := ["available"]
    archFilter := ["x86_64"]
    owners := inferOwners amiFilter }

/-- AWS-side matching of one image against a `describe_images` request. -/
def imageMatches (p : DescribeImagesParams) (img : Image) : Bool :=
  globMatch p.nameFilter img.name &&
  p.stateFilter.contains img.state &&
  p.archFilter.contains img.architecture &&
  (match p.owners with
   | none => true
   | some os => os.contains img.ownerId)

/-- AWS-side semantics of `describe_images`: the catalog filtered by the
request. -/
def awsDescribeImages (catalog : List Image) (p : DescribeImagesParams) : List Image :=
  catalog.filter (imageMatches p)

/-- The sort `images.sort(key=lambda x: x["CreationDate"], reverse=True)`
performed by both `get_latest_ami` and `list_amis`: a stable sort putting
the newest creation date first. -/
def sortByCreationDateDesc (images : List Image) : List Image :=
  images.mergeSort fun a b => strLe b.creationDate a.creationDate

/-- Embedding of `ec2.get_latest_ami`: infer owners, call `describe_images`,
raise `CLIError` when no image came back, else sort newest-first and return
the first image. -/
def get_latest_ami (catalog : List Image) (amiFilter : String) : Except CLIErr Image :=
  let images := awsDescribeImages catalog (get_latest_ami_request amiFilter)
  if images.isEmpty then .error (.noAmiFound amiFilter)
  else .ok (sortByCreationDateDesc images).headI

/-- One entry of the list returned by `list_amis`. -/
structure AmiSummary where
  image_id : String
  name : String
  creation_date : String
  architecture : String
deriving DecidableEq, Repr, Inhabited

/-- Embedding of `ec2.list_amis`: same request construction as
`get_latest_ami`, then sort newest-first, keep the 20 most recent and
project each image to a summary dict. -/
def list_amis (catalog : List Image) (amiFilter : String) : List AmiSummary :=
  let images := awsDescribeImages catalog (list_amis_request amiFilter)
  ((sortByCreationDateDesc images).take 20).map fun img =>
    { image_id := img.imageId
      name := img.name
      creation_date := img.creationDate
      architecture := img.architecture }

/-- The `_FAMILY_PREFIXES` table of `ec2.py`, in source order. -/
def FAMILY_PREFIXES : List (List String × String) :=
  [(["g", "vt"], "gvt"),
   (["p"], "p"),
   (["dl"], "dl")]

/-- Embedding of `ec2.instance_type_to_family`: take the portion before the
first `.` and return the family of the first prefix row that matches
(`str.startswith` with a tuple), else `none`. -/
def instance_type_to_family (instanceType : String) : Option String :=
  let stem := strBefore instanceType '.'
  (FAMILY_PREFIXES.find? fun row => row.1.any fun s => strStartsWith stem s).map Prod.snd

/-- The fields of `config.LaunchConfig` consumed by the embedded functions
(`cli.launch`, `ec2.launch_instance`, `ec2._raise_quota_error`). -/
structure LaunchConfig where
  instance_type : String
  spot : Bool
  key_name : String
  region : String
  security_group : String
  volume_size : Nat
  tag_value : String
  run_setup : Bool
  dry_run : Bool
  ebs_storage : Option Nat
  ebs_volume_id : Option String
deriving DecidableEq, Repr

/-- The `run_instances` request assembled by `launch_instance`:
`marketOptionsSpot` records whether the `InstanceMarketOptions` spot block
is present. -/
structure RunInstancesParams where
  imageId : String
  instanceType : String
  keyName : String
  securityGroupIds : List String
  rootVolumeSize : Nat
  tags : List Tag
  marketOptionsSpot : Bool
deriving DecidableEq, Repr

/-- The `launch_params` dict built at the top of `ec2.launch_instance`. -/
def launchParams (config : LaunchConfig) (amiId sgId : String) : RunInstancesParams :=
  { imageId := amiId
    instanceType := config.instance_type
    keyName := config.key_name
    securityGroupIds := [sgId]
    rootVolumeSize := config.volume_size
    tags := [⟨"Name", "aws-bootstrap-" ++ config.instance_type⟩,
             ⟨"created-by", config.tag_value⟩]
    marketOptionsSpot := config.spot }

/-- The instance dict returned by `run_instances` (only the identifier is
needed by the embedded claims). -/
structure LaunchedInstance where
  instanceId : String
deriving DecidableEq, Repr

/-- Embedding of `ec2._raise_quota_error`: build the `CLIError` carrying the
label, quota type, inferred family (default `gvt`), instance type and
region that the source interpolates into its message. -/
def raise_quota_error (code : String) (config : LaunchConfig) : CLIErr :=
  let qt := if code = "MaxSpotInstanceCountExceeded"
            then ("spot", "Spot instance")
            else ("on-demand", "On-demand vCPU")
  let family := (instance_type_to_family config.instance_type).getD "gvt"
  .quotaExceeded qt.2 qt.1 family config.instance_type config.region

/-- Embedding of `ec2.launch_instance`.  `run` is the `run_instances` API;
`retryConfirmed` is the value of `not is_text() or click.confirm("Retry as
on-demand instance?")` evaluated when the spot attempt fails for capacity.
Returns the result together with the list of `run_instances` requests that
were issued. -/
def launch_instance (run : RunInstancesParams → Except AwsError LaunchedInstance)
    (retryConfirmed : Bool) (config : LaunchConfig) (amiId sgId : String) :
    Except ToolError LaunchedInstance × List RunInstancesParams :=
  let params := launchParams config amiId sgId
  match run params with
  | .ok inst => (.ok inst, [params])
  | .error e =>
    if e.code = "MaxSpotInstanceCountExceeded" ∨ e.code = "VcpuLimitExceeded" then
      (.error (.cli (raise_quota_error e.code config)), [params])
    else if (e.code = "InsufficientInstanceCapacity" ∨ e.code = "SpotMaxPriceTooLow")
        ∧ config.spot then
      if retryConfirmed then
        let params2 := { params with marketOptionsSpot := false }
        match run params2 with
        | .ok inst => (.ok inst, [params, params2])
        | .error e2 =>
          if e2.code = "MaxSpotInstanceCountExceeded" ∨ e2.code = "VcpuLimitExceeded" then
            (.error (.cli (raise_quota_error e2.code config)), [params, params2])
          else if e2.code = "InsufficientInstanceCapacity" then
            (.error (.cli (.insufficientCapacityBoth config.instance_type config.region)),
             [params, params2])
          else
            (.error (.aws e2), [params, params2])
      else
        (.error (.cli .launchCancelled), [params])
    else if e.code = "InsufficientInstanceCapacity" then
      (.error (.cli (.insufficientCapacity config.instance_type config.region)), [params])
    else
      (.error (.aws e), [params])

/-- An EC2 VPC as seen by `describe_vpcs`. -/
structure Vpc where
  vpcId : String
  isDefault : Bool
deriving DecidableEq, Repr

/-- An EC2 security group as seen by `describe_security_groups`. -/
structure SecurityGroup where
  groupId : String
  groupName : String
  vpcId : String
deriving DecidableEq, Repr

/-- The AWS-side state consulted by `ensure_security_group`; `freshGroupId`
is the `GroupId` AWS would assign to a newly created group. -/
structure SgEnv where
  vpcs : List Vpc
  groups : List SecurityGroup
  freshGroupId : String
deriving DecidableEq, Repr

/-- EC2 write calls issued by `ensure_security_group`. -/
inductive SgAction where
  | createSecurityGroup (groupName description vpcId : String) (tags : List Tag)
  | authorizeIngress (groupId ipProtocol : String) (fromPort toPort : Nat) (cidrIp : String)
deriving DecidableEq, Repr

/-- Embedding of `ec2.ensure_security_group`: find the default VPC (error if
none), reuse an existing group with the given name in that VPC, otherwise
create a tagged group and authorize SSH ingress.  Returns the `GroupId`
together with the write calls issued. -/
def ensure_security_group (env : SgEnv) (name tagValue : String) (sshPort : Nat) :
    Except CLIErr (String × List SgAction) :=
  match env.vpcs.filter Vpc.isDefault with
  | [] => .error .noDefaultVpc
  | vpc :: _ =>
    match env.groups.filter (fun g => g.groupName == name && g.vpcId == vpc.vpcId) with
    | g :: _ => .ok (g.groupId, [])
    | [] =>
      .ok (env.freshGroupId,
           [.createSecurityGroup name "SSH access for aws-bootstrap-g4dn instances" vpc.vpcId
              [⟨"created-by", tagValue⟩, ⟨"Name", name⟩],
            .authorizeIngress env.freshGroupId "tcp" sshPort sshPort "0.0.0.0/0"])

/-- The `import_key_pair` request assembled by `ssh.import_key_pair`. -/
structure ImportKeyPairParams where
  keyName : String
  tags : List Tag
deriving DecidableEq, Repr

/-- Embedding of `ssh.import_key_pair`.  `describeResult` is the
`describe_key_pairs(KeyNames=[key_name])` outcome: an existing key name, or
a `ClientError` (the `InvalidKeyPair.NotFound` code stands for the
`"InvalidKeyPair.NotFound" in str(e)` test).  Returns the key name together
with the import requests issued. -/
def import_key_pair (describeResult : Except AwsError String) (keyName : String) :
    Except AwsError (String × List ImportKeyPairParams) :=
  match describeResult with
  | .ok existingName => .ok (existingName, [])
  | .error e =>
    if e.code = "InvalidKeyPair.NotFound" then
      .ok (keyName, [{ keyName := keyName
                       tags := [⟨"created-by", "aws-bootstrap-g4dn"⟩] }])
    else .error e

/-- One attachment entry of an EC2 volume; `device` is its optional
`Device` field. -/
structure VolumeAttachment where
  device : Option String
deriving DecidableEq, Repr

/-- An EC2 EBS volume as held on the AWS side and as returned (as a dict)
by `describe_volumes`. -/
structure Ec2Volume where
  volumeId : String
  size : Nat
  state : String
  availabilityZone : String
  attachments : List VolumeAttachment
  tags : List Tag
deriving DecidableEq, Repr

/-- The `create_volume` request assembled by `ec2.create_ebs_volume`. -/
structure CreateVolumeParams where
  availabilityZone : String
  size : Nat
  volumeType : String
  tags : List Tag
deriving DecidableEq, Repr

/-- The request built by `ec2.create_ebs_volume`: a `gp3` volume tagged with
`created-by`, a `Name` derived from the instance, and the
`aws-bootstrap-instance` link tag. -/
def create_ebs_volume_request (sizeGb : Nat) (availabilityZone tagValue instanceId : String) :
    CreateVolumeParams :=
  { availabilityZone := availabilityZone
    size := sizeGb
    volumeType := "gp3"
    tags := [⟨"created-by", tagValue⟩,
             ⟨"Name", "aws-bootstrap-data-" ++ instanceId⟩,
             ⟨"aws-bootstrap-instance", instanceId⟩] }

/-- Embedding of `ec2.create_ebs_volume`: issue the create request, wait for
the volume (the waiter has no observable effect here) and return the new
volume id.  `createVolume` is the `create_volume` API returning the
assigned `VolumeId`. -/
def create_ebs_volume (createVolume : CreateVolumeParams → String)
    (sizeGb : Nat) (availabilityZone tagValue instanceId : String) :
    String × CreateVolumeParams :=
  let p := create_ebs_volume_request sizeGb availabilityZone tagValue instanceId
  (createVolume p, p)

/-- One entry of the list returned by `find_ebs_volumes_for_instance`. -/
structure VolumeInfo where
  volumeId : String
  size : Nat
  device : String
  state : String
deriving DecidableEq, Repr

/-- Embedding of `ec2.find_ebs_volumes_for_instance`: `describe_volumes`
filtered by the `aws-bootstrap-instance` and `created-by` tags (AWS-side),
projected to summary dicts; a `ClientError` (`apiError`) yields `[]`. -/
def find_ebs_volumes_for_instance (catalog : List Ec2Volume) (apiError : Bool)
    (instanceId tagValue : String) : List VolumeInfo :=
  if apiError then []
  else
    (catalog.filter fun v =>
        hasTag v.tags "aws-bootstrap-instance" instanceId &&
        hasTag v.tags "created-by" tagValue).map fun v =>
      { volumeId := v.volumeId
        size := v.size
        device := match v.attachments with
                  | [] => ""
                  | a :: _ => a.device.getD ""
        state := v.state }

/-- One entry of the list returned by `find_orphan_ebs_volumes`. -/
structure OrphanVolume where
  volumeId : String
  size : Nat
  state : String
  instanceId : String
deriving DecidableEq, Repr

/-- Embedding of `ec2.find_orphan_ebs_volumes`: `describe_volumes` filtered
AWS-side by `tag:created-by` and `status = available`, then kept when the
`aws-bootstrap-instance` tag (dict-comprehension lookup, last entry wins)
is non-empty and not among the live instance ids; a `ClientError`
(`apiError`) yields `[]`. -/
def find_orphan_ebs_volumes (catalog : List Ec2Volume) (apiError : Bool)
    (tagValue : String) (liveInstanceIds : List String) : List OrphanVolume :=
  if apiError then []
  else
    (catalog.filter fun v =>
        hasTag v.tags "created-by" tagValue && v.state == "available").filterMap fun v =>
      let linked := lastTagValue v.tags "aws-bootstrap-instance"
      if linked != "" && !(liveInstanceIds.contains linked) then
        some { volumeId := v.volumeId
               size := v.size
               state := v.state
               instanceId := linked }
      else none

/-- An EC2 instance as held on the AWS side and as returned (as a dict
inside a reservation) by `describe_instances`. -/
structure Ec2Instance where
  instanceId : String
  stateName : String
  instanceType : String
  publicIpAddress : Option String
  launchTime : String
  instanceLifecycle : Option String
  availabilityZone : String
  tags : List Tag
deriving DecidableEq, Repr

/-- The non-terminated instance states requested by `find_tagged_instances`. -/
def INSTANCE_LIVE_STATES : List String :=
  ["pending", "running", "stopping", "stopped", "shutting-down"]

/-- One entry of the list returned by `find_tagged_instances`. -/
structure InstanceInfo where
  instanceId : String
  name : String
  state : String
  instanceType : String
  publicIp : String
  launchTime : String
  lifecycle : String
  availabilityZone : String
deriving DecidableEq, Repr

/-- AWS-side semantics of the `describe_instances` call in
`find_tagged_instances`: each reservation keeps the instances carrying the
`created-by` tag value in a non-terminated state. -/
def awsDescribeInstances (reservations : List (List Ec2Instance)) (tagValue : String) :
    List (List Ec2Instance) :=
  reservations.map fun res => res.filter fun inst =>
    hasTag inst.tags "created-by" tagValue && INSTANCE_LIVE_STATES.contains inst.stateName

/-- Embedding of `ec2.find_tagged_instances`: flatten the filtered
reservations and project each instance to a summary dict (first `Name` tag
or `""`, missing public IP as `""`, missing lifecycle as `"on-demand"`). -/
def find_tagged_instances (reservations : List (List Ec2Instance)) (tagValue : String) :
    List InstanceInfo :=
  (awsDescribeInstances reservations tagValue).flatten.map fun inst =>
    { instanceId := inst.instanceId
      name := firstTagValue inst.tags "Name"
      state := inst.stateName
      instanceType := inst.instanceType
      publicIp := inst.publicIpAddress.getD ""
      launchTime := inst.launchTime
      lifecycle := inst.instanceLifecycle.getD "on-demand"
      availabilityZone := inst.availabilityZone }

/-- Outcome of one iteration of the `wait_for_ssh` loop: the TCP probe to
port 22 failed, the SSH command returned non-zero, or the SSH command
succeeded. -/
inductive SshProbe where
  | portClosed
  | sshFailed
  | sshOk
deriving DecidableEq, Repr

/-- Observable result of `wait_for_ssh`: the returned boolean, the number of
loop iterations performed, and the argument of each `time.sleep` call in
order. -/
structure SshWaitResult where
  success : Bool
  attemptsMade : Nat
  sleeps : List Nat
deriving DecidableEq, Repr

/-- The body of the `for attempt in range(1, retries + 1)` loop of
`ssh.wait_for_ssh`, one list element per remaining attempt number: a
successful probe returns `True` immediately, any failed probe sleeps
`delay` seconds and continues, and an exhausted range returns `False`. -/
def wait_for_ssh_loop (probe : Nat → SshProbe) (delay : Nat) :
    List Nat → SshWaitResult
  | [] => ⟨false, 0, []⟩
  | a :: rest =>
    match probe a with
    | .sshOk => ⟨true, 1, []⟩
    | _ =>
      let r := wait_for_ssh_loop probe delay rest
      ⟨r.success, r.attemptsMade + 1, delay :: r.sleeps⟩

/-- Embedding of `ssh.wait_for_ssh`: run the loop body over the attempt
numbers `1, ..., retries`.  Totality of this definition witnesses that the
source loop always terminates. -/
def wait_for_ssh (probe : Nat → SshProbe) (retries delay : Nat) : SshWaitResult :=
  wait_for_ssh_loop probe delay (List.range' 1 retries)

/-- A service quota as returned by `quota.get_quota` (the projection of the
`get_service_quota` response). -/
structure QuotaInfo where
  quota_code : String
  quota_name : String
  value : Rat
deriving DecidableEq, Repr

/-- The `RequestedQuota` record of a `request_service_quota_increase`
response. -/
structure RequestedQuota where
  id : String
  status : String
  quotaCode : String
  quotaName : String
  desiredValue : Rat
  caseId : Option String
deriving DecidableEq, Repr

/-- The dict returned by `quota.request_quota_increase`, with the
`quota_type` and `family` keys that `cli.quota_request` adds afterwards. -/
structure QuotaRequestResult where
  request_id : String
  status : String
  quota_code : String
  quota_name : String
  desired_value : Rat
  case_id : Option String
  quota_type : String
  family : String
deriving DecidableEq, Repr

/-- The `QUOTA_FAMILIES` table of `quota.py`: family to quota-type to quota
code. -/
def QUOTA_FAMILIES : List (String × List (String × String)) :=
  [("gvt", [("spot", "L-3819A6DF"), ("on-demand", "L-DB2E81BA")]),
   ("p", [("spot", "L-7212CCBC"), ("on-demand", "L-417A185B")]),
   ("dl", [("spot", "L-85EED4F7"), ("on-demand", "L-6E869C2A")])]

/-- The lookup `QUOTA_FAMILIES[family][quota_type]` (both keys are
validated by `click.Choice`, so a `none` is unreachable from the CLI). -/
def quotaCodeFor (family quotaType : String) : Option String := do
  let row ← QUOTA_FAMILIES.find? fun r => r.1 == family
  let entry ← row.2.find? fun e => e.1 == quotaType
  pure entry.2

/-- Embedding of `quota.get_quota`: call `get_service_quota`, translating a
`NoSuchResourceException` into a `CLIError` and propagating any other
client error. -/
def get_quota (api : String → Except AwsError QuotaInfo) (quotaCode : String) :
    Except ToolError QuotaInfo :=
  match api quotaCode with
  | .ok q => .ok q
  | .error e =>
    if e.code = "NoSuchResourceException" then .error (.cli (.quotaNotFound quotaCode))
    else .error (.aws e)

/-- Embedding of `quota.request_quota_increase`: call
`request_service_quota_increase`, translating the three known error codes
into `CLIError`s and propagating anything else; on success project the
`RequestedQuota` into the result dict. -/
def request_quota_increase (api : String → Rat → Except AwsError RequestedQuota)
    (quotaCode : String) (desiredValue : Rat) :
    Except ToolError (String × String × String × String × Rat × Option String) :=
  match api quotaCode desiredValue with
  | .ok req => .ok (req.id, req.status, req.quotaCode, req.quotaName, req.desiredValue, req.caseId)
  | .error e =>
    if e.code = "NoSuchResourceException" then .error (.cli (.quotaNotFound quotaCode))
    else if e.code = "ResourceAlreadyExistsException" then
      .error (.cli .quotaRequestAlreadyPending)
    else if e.code = "IllegalArgumentException" then
      .error (.cli (.invalidQuotaArgument e.message))
    else .error (.aws e)

/-- Embedding of the `cli.quota_request` command.  `getQuotaApi` and
`requestApi` are the two Service Quotas calls; `isText` is the output mode,
`yes` the `--yes` flag and `userConfirm` the answer `click.confirm` would
give if prompted.  Returns the command result (`none` when the user
cancelled) together with the list of `(quota_code, desired_value)` increase
submissions that were issued. -/
def quota_request (getQuotaApi : String → Except AwsError QuotaInfo)
    (requestApi : String → Rat → Except AwsError RequestedQuota)
    (isText yes userConfirm : Bool) (family quotaType : String) (desiredValue : Rat) :
    Except ToolError (Option QuotaRequestResult) × List (String × Rat) :=
  if !isText && !yes then
    (.error (.cli .yesRequiredForStructuredOutput), [])
  else
    match quotaCodeFor family quotaType with
    | none => (.error (.aws ⟨"KeyError", family ++ "/" ++ quotaType⟩), [])
    | some quotaCode =>
      match get_quota getQuotaApi quotaCode with
      | .error e => (.error e, [])
      | .ok current =>
        if desiredValue ≤ current.value then
          (.error (.cli (.desiredNotGreater desiredValue current.value)), [])
        else if !yes && !userConfirm then
          (.ok none, [])
        else
          match request_quota_increase requestApi quotaCode desiredValue with
          | .error e => (.error e, [(quotaCode, desiredValue)])
          | .ok (rid, st, qc, qn, dv, cid) =>
            (.ok (some { request_id := rid
                         status := st
                         quota_code := qc
                         quota_name := qn
                         desired_value := dv
                         case_id := cid
                         quota_type := quotaType
                         family := family }),
             [(quotaCode, desiredValue)])

/-- The externally visible steps of the `cli.launch` command, in the order
the command performs them. -/
inductive LaunchEvent where
  | amiLookup
  | importKeyPair
  | ensureSecurityGroup
  | launchInstance
  | waitInstanceReady
  | createEbsVolume
  | validateEbsVolume
  | tagEbsVolume
  | attachEbsVolume
  | waitForSsh
  | runRemoteSetup
  | mountEbsVolume
  | addSshHost
deriving DecidableEq, Repr

/-- Python truthiness of the optional `--ebs-storage` integer. -/
def natOptTruthy : Option Nat → Bool
  | none => false
  | some n => !(n == 0)

/-- Python truthiness of the optional `--ebs-volume-id` string. -/
def strOptTruthy : Option String → Bool
  | none => false
  | some s => !(s == "")

/-- Embedding of the `cli.launch` command as the sequence of steps it
performs.  `keyExists` models `config.key_path.exists()`; `publicIp` the
public IP the instance got (if any); `sshOk` the `wait_for_ssh` outcome;
`setupScriptExists` the `SETUP_SCRIPT.exists()` check.  Sub-calls are
assumed to return (an exception raised inside one would abort the whole
command); the `--dry-run` summary, warnings and echoes are not modelled,
and a freshly created EBS volume is assumed to get a non-empty id. -/
def launch (config : LaunchConfig) (keyExists : Bool) (publicIp : Option String)
    (sshOk setupScriptExists : Bool) : Except CLIErr (List LaunchEvent) :=
  if config.ebs_storage.isSome && config.ebs_volume_id.isSome then
    .error .ebsOptionsMutuallyExclusive
  else if !keyExists then
    .error .sshKeyNotFound
  else
    let steps123 := [LaunchEvent.amiLookup, .importKeyPair, .ensureSecurityGroup]
    if config.dry_run then .ok steps123
    else
      let hasEbs := config.ebs_storage.isSome || config.ebs_volume_id.isSome
      let steps45 := steps123 ++ [.launchInstance, .waitInstanceReady]
      match publicIp with
      | none => .ok steps45
      | some _ =>
        let ebsSteps :=
          if hasEbs then
            (if natOptTruthy config.ebs_storage then [LaunchEvent.createEbsVolume]
             else if strOptTruthy config.ebs_volume_id then
               [LaunchEvent.validateEbsVolume, .tagEbsVolume]
             else []) ++ [LaunchEvent.attachEbsVolume]
          else []
        let ebsAttached := natOptTruthy config.ebs_storage || strOptTruthy config.ebs_volume_id
        let stepsSsh := steps45 ++ ebsSteps ++ [.waitForSsh]
        if !sshOk then .ok stepsSsh
        else
          let setupSteps :=
            if config.run_setup && setupScriptExists then [LaunchEvent.runRemoteSetup] else []
          let mountSteps := if ebsAttached then [LaunchEvent.mountEbsVolume] else []
          .ok (stepsSsh ++ setupSteps ++ mountSteps ++ [.addSshHost])

/-- Concrete fixture: an older Deep Learning AMI. -/
def amiOld : Image :=
  { imageId := "ami-old"
    name := "DL AMI old"
    state := "available"
    architecture := "x86_64"
    creationDate := "2024-01-01T00:00:00Z"
    ownerId := "amazon" }

/-- Concrete fixture: a newer Deep Learning AMI. -/
def amiNew : Image :=
  { imageId := "ami-new"
    name := "DL AMI new"
    state := "available"
    architecture := "x86_64"
    creationDate := "2025-06-01T00:00:00Z"
    ownerId := "amazon" }

theorem lexLe_refl (l : List Char) : lexLe l l = true := by
  induction l with
  | nil => rfl
  | cons a as ih => simp [lexLe, ih]

theorem lexLe_total (l₁ l₂ : List Char) : lexLe l₁ l₂ = true ∨ lexLe l₂ l₁ = true := by
  induction l₁ generalizing l₂ with
  | nil => left; rfl
  | cons a as ih =>
    cases l₂ with
    | nil => right; rfl
    | cons b bs =>
      by_cases h : a.toNat = b.toNat
      · rcases ih bs with h' | h'
        · left; simp [lexLe, h, h']
        · right; simp [lexLe, h.symm, h']
      · rcases Nat.lt_or_ge a.toNat b.toNat with hlt | hge
        · left; simp [lexLe, h, hlt]
        · have hba : b.toNat < a.toNat := by omega
          right; simp only [lexLe, if_neg (by omega : ¬b.toNat = a.toNat)]
          simp [hba]

theorem lexLe_trans : ∀ {l₁ l₂ l₃ : List Char},
    lexLe l₁ l₂ = true → lexLe l₂ l₃ = true → lexLe l₁ l₃ = true
  | [], _, _, _, _ => rfl
  | _ :: _, [], _, h, _ => by simp [lexLe] at h
  | _ :: _, _ :: _, [], _, h => by simp [lexLe] at h
  | a :: as, b :: bs, c :: cs, h₁, h₂ => by
    by_cases hab : a.toNat = b.toNat <;> by_cases hbc : b.toNat = c.toNat
    · simp only [lexLe, hab, if_pos rfl] at h₁
      simp only [lexLe, hbc, if_pos rfl] at h₂
      have hac : a.toNat = c.toNat := hab.trans hbc
      simp only [lexLe, hac, if_pos rfl]
      exact lexLe_trans h₁ h₂
    · simp only [lexLe, if_neg hbc] at h₂
      have h₂' : b.toNat < c.toNat := by simpa using h₂
      have hac : a.toNat < c.toNat := by omega
      simp [lexLe, hac, Nat.ne_of_lt hac]
    · simp only [lexLe, if_neg hab] at h₁
      have h₁' : a.toNat < b.toNat := by simpa using h₁
      have hac : a.toNat < c.toNat := by omega
      simp [lexLe, hac, Nat.ne_of_lt hac]
    · simp only [lexLe, if_neg hab] at h₁
      simp only [lexLe, if_neg hbc] at h₂
      have h₁' : a.toNat < b.toNat := by simpa using h₁
      have h₂' : b.toNat < c.toNat := by simpa using h₂
      have hac : a.toNat < c.toNat := by omega
      simp [lexLe, hac, Nat.ne_of_lt hac]

theorem strLe_refl (s : String) : strLe s s = true :=
  lexLe_refl s.data

theorem strLe_total (s₁ s₂ : String) : strLe s₁ s₂ = true ∨ strLe s₂ s₁ = true :=
  lexLe_total s₁.data s₂.data

theorem strLe_trans {s₁ s₂ s₃ : String}
    (h₁ : strLe s₁ s₂ = true) (h₂ : strLe s₂ s₃ = true) : strLe s₁ s₃ = true :=
  lexLe_trans h₁ h₂

theorem sortByCreationDateDesc_perm (l : List Image) :
    (sortByCreationDateDesc l).Perm l :=
  List.mergeSort_perm l _

theorem sortByCreationDateDesc_pairwise (l : List Image) :
    List.Pairwise (fun a b => strLe b.creationDate a.creationDate = true)
      (sortByCreationDateDesc l) := by
  refine List.sorted_mergeSort ?_ ?_ l
  · intro a b c hab hbc
    exact strLe_trans hbc hab
  · intro a b
    rcases strLe_total b.creationDate a.creationDate with h | h <;> simp [h]

theorem head_sortByCreationDateDesc_max (l : List Image) (h : l ≠ []) :
    (sortByCreationDateDesc l).headI ∈ l ∧
    ∀ a ∈ l, strLe a.creationDate (sortByCreationDateDesc l).headI.creationDate = true := by
  have hperm := sortByCreationDateDesc_perm l
  have hne : sortByCreationDateDesc l ≠ [] := by
    intro h0
    exact h (List.eq_nil_of_length_eq_zero (hperm.length_eq.symm.trans (by simp [h0])))
  obtain ⟨hd, tl, heq⟩ := List.exists_cons_of_ne_nil hne
  have hpw := sortByCreationDateDesc_pairwise l
  rw [heq] at hpw
  have hrel := (List.pairwise_cons.mp hpw).1
  constructor
  · have : hd ∈ sortByCreationDateDesc l := by rw [heq]; exact List.mem_cons_self _ _
    simpa [heq] using hperm.mem_iff.mp this
  · intro a ha
    have ha' : a ∈ sortByCreationDateDesc l := hperm.mem_iff.mpr ha
    rw [heq] at ha'
    rcases List.mem_cons.mp ha' with rfl | hmem
    · simp [heq, strLe_refl]
    · simpa [heq] using hrel a hmem

/-- C10: for every instance type string, `instance_type_to_family` returns
`gvt` when the portion before the first `.` starts with `g` or `vt`,
otherwise `p` when it starts with `p`, otherwise `dl` when it starts with
`dl`, and otherwise `none`; in particular the non-GPU type `t3.medium`
maps to `none`. -/
theorem C10_instance_type_to_family_prefix_rules (instanceType : String) :
    (instance_type_to_family instanceType =
      (if strStartsWith (strBefore instanceType '.') "g" = true
          ∨ strStartsWith (strBefore instanceType '.') "vt" = true then some "gvt"
       else if strStartsWith (strBefore instanceType '.') "p" = true then some "p"
       else if strStartsWith (strBefore instanceType '.') "dl" = true then some "dl"
       else none)) ∧
    instance_type_to_family "t3.medium" = none := by
  refine ⟨?_, by decide⟩
  cases h1 : strStartsWith (strBefore instanceType '.') "g" <;>
  cases h2 : strStartsWith (strBefore instanceType '.') "vt" <;>
  cases h3 : strStartsWith (strBefore instanceType '.') "p" <;>
  cases h4 : strStartsWith (strBefore instanceType '.') "dl" <;>
  simp [instance_type_to_family, FAMILY_PREFIXES, List.find?, h1, h2, h3, h4]

/-- C4: for every describe_images response (the catalog filtered by the
request `get_latest_ami` sends), the function raises the no-AMI `CLIError`
exactly when no image matches the request, and otherwise returns a
matching image (hence one with state `available` and architecture
`x86_64`) whose `CreationDate` is maximal among the matching images. -/
theorem C4_get_latest_ami_newest_match (catalog : List Image) (amiFilter : String) :
    (get_latest_ami catalog amiFilter = .error (.noAmiFound amiFilter) ↔
      catalog.filter (imageMatches (get_latest_ami_request amiFilter)) = []) ∧
    ∀ img, get_latest_ami catalog amiFilter = .ok img →
      img ∈ catalog.filter (imageMatches (get_latest_ami_request amiFilter)) ∧
      ∀ i ∈ catalog.filter (imageMatches (get_latest_ami_request amiFilter)),
        strLe i.creationDate img.creationDate = true := by
  by_cases h : catalog.filter (imageMatches (get_latest_ami_request amiFilter)) = []
  · constructor
    · simp [get_latest_ami, awsDescribeImages, h]
    · intro img himg
      simp [get_latest_ami, awsDescribeImages, h] at himg
  · have hie : (catalog.filter (imageMatches (get_latest_ami_request amiFilter))).isEmpty = false := by
      simpa [List.isEmpty_iff] using h
    have hmax := head_sortByCreationDateDesc_max _ h
    constructor
    · simp [get_latest_ami, awsDescribeImages, hie, h]
    · intro img himg
      simp only [get_latest_ami, awsDescribeImages, hie, Bool.false_eq_true, if_false,
        Except.ok.injEq] at himg
      rw [← himg]
      exact hmax

/-- C4 witness: on a concrete two-image response the newest image is
returned, belongs to the matching set, and its creation date is maximal. -/
theorem C4_witness :
    get_latest_ami [amiOld, amiNew] "DL AMI*" = .ok amiNew ∧
    amiNew ∈ [amiOld, amiNew].filter (imageMatches (get_latest_ami_request "DL AMI*")) ∧
    ∀ i ∈ [amiOld, amiNew].filter (imageMatches (get_latest_ami_request "DL AMI*")),
      strLe i.creationDate amiNew.creationDate = true := by
  have hok : get_latest_ami [amiOld, amiNew] "DL AMI*" = .ok amiNew := by
    simp [get_latest_ami, awsDescribeImages, sortByCreationDateDesc, get_latest_ami_request,
      inferOwners, OWNER_HINTS, imageMatches, globMatch, globChars, strStartsWith,
      List.mergeSort, strLe, lexLe, amiOld, amiNew]
  have h := (C4_get_latest_ami_newest_match [amiOld, amiNew] "DL AMI*").2 amiNew hok
  exact ⟨hok, h.1, h.2⟩

/-- C9: `list_amis` builds the same describe_images request as
`get_latest_ami` (same owner hints, same filters), and whenever `list_amis`
returns a non-empty list, the `image_id` of its first element is the
`ImageId` of the image `get_latest_ami` returns for the same filter. -/
theorem C9_list_amis_head_agrees (catalog : List Image) (amiFilter : String)
    (h : list_amis catalog amiFilter ≠ []) :
    list_amis_request amiFilter = get_latest_ami_request amiFilter ∧
    ∃ img, get_latest_ami catalog amiFilter = .ok img ∧
      (list_amis catalog amiFilter).headI.image_id = img.imageId := by
  refine ⟨rfl, ?_⟩
  have hreq : list_amis_request amiFilter = get_latest_ami_request amiFilter := rfl
  have hresp : catalog.filter (imageMatches (get_latest_ami_request amiFilter)) ≠ [] := by
    intro h0
    apply h
    unfold list_amis awsDescribeImages
    rw [hreq, h0]
    simp [sortByCreationDateDesc]
  have hie : (catalog.filter (imageMatches (get_latest_ami_request amiFilter))).isEmpty = false := by
    simpa [List.isEmpty_iff] using hresp
  have hne : sortByCreationDateDesc
      (catalog.filter (imageMatches (get_latest_ami_request amiFilter))) ≠ [] := by
    intro h0
    exact hresp (List.eq_nil_of_length_eq_zero
      ((sortByCreationDateDesc_perm _).length_eq.symm.trans (by simp [h0])))
  obtain ⟨hd, tl, heq⟩ := List.exists_cons_of_ne_nil hne
  refine ⟨hd, ?_, ?_⟩
  · simp [get_latest_ami, awsDescribeImages, hie, heq]
  · unfold list_amis awsDescribeImages
    rw [hreq]
    dsimp only
    rw [heq]
    simp

/-- C9 witness: on a concrete two-image catalog `list_amis` is non-empty
and its first image id agrees with `get_latest_ami`. -/
theorem C9_witness :
    list_amis [amiOld, amiNew] "DL AMI*" ≠ [] ∧
    ∃ img, get_latest_ami [amiOld, amiNew] "DL AMI*" = .ok img ∧
      (list_amis [amiOld, amiNew] "DL AMI*").headI.image_id = img.imageId := by
  have hne : list_amis [amiOld, amiNew] "DL AMI*" ≠ [] := by
    simp [list_amis, awsDescribeImages, sortByCreationDateDesc, list_amis_request,
      inferOwners, OWNER_HINTS, imageMatches, globMatch, globChars, strStartsWith,
      List.mergeSort, strLe, lexLe, amiOld, amiNew]
  exact ⟨hne, (C9_list_amis_head_agrees [amiOld, amiNew] "DL AMI*" hne).2⟩

theorem wait_for_ssh_loop_spec (probe : Nat → SshProbe) (delay : Nat) :
    ∀ (n start : Nat),
      (wait_for_ssh_loop probe delay (List.range' start n)).attemptsMade ≤ n ∧
      ((wait_for_ssh_loop probe delay (List.range' start n)).success = true ↔
        ∃ i, start ≤ i ∧ i < start + n ∧ probe i = .sshOk) ∧
      ((wait_for_ssh_loop probe delay (List.range' start n)).success = true →
        1 ≤ (wait_for_ssh_loop probe delay (List.range' start n)).attemptsMade ∧
        probe (start + (wait_for_ssh_loop probe delay (List.range' start n)).attemptsMade - 1) = .sshOk ∧
        (∀ i, start ≤ i →
          i < start + (wait_for_ssh_loop probe delay (List.range' start n)).attemptsMade - 1 →
          probe i ≠ .sshOk) ∧
        (wait_for_ssh_loop probe delay (List.range' start n)).sleeps =
          List.replicate ((wait_for_ssh_loop probe delay (List.range' start n)).attemptsMade - 1) delay) ∧
      ((wait_for_ssh_loop probe delay (List.range' start n)).success = false →
        (wait_for_ssh_loop probe delay (List.range' start n)).attemptsMade = n ∧
        (wait_for_ssh_loop probe delay (List.range' start n)).sleeps =
          List.replicate n delay) := by
  intro n
  induction n with
  | zero =>
    intro start
    refine ⟨Nat.le_refl 0, ?_, ?_, ?_⟩
    · simp [wait_for_ssh_loop]
      omega
    · intro hs
      simp [wait_for_ssh_loop] at hs
    · intro _
      exact ⟨rfl, rfl⟩
  | succ n ih =>
    intro start
    rw [List.range'_succ]
    obtain ⟨iha, ihok, ihsucc, ihfail⟩ := ih (start + 1)
    cases hp : probe start with
    | sshOk =>
      have hunf : wait_for_ssh_loop probe delay (start :: List.range' (start + 1) n) =
          ⟨true, 1, []⟩ := by
        simp [wait_for_ssh_loop, hp]
      rw [hunf]
      dsimp only
      refine ⟨by omega, ?_, ?_, ?_⟩
      · exact ⟨fun _ => ⟨start, Nat.le_refl _, by omega, hp⟩, fun _ => rfl⟩
      · intro _
        refine ⟨Nat.le_refl 1, by simpa using hp, ?_, by simp⟩
        intro i hi1 hi2
        omega
      · intro hs
        simp at hs
    | portClosed =>
      have hunf : wait_for_ssh_loop probe delay (start :: List.range' (start + 1) n) =
          ⟨(wait_for_ssh_loop probe delay (List.range' (start + 1) n)).success,
           (wait_for_ssh_loop probe delay (List.range' (start + 1) n)).attemptsMade + 1,
           delay :: (wait_for_ssh_loop probe delay (List.range' (start + 1) n)).sleeps⟩ := by
        simp [wait_for_ssh_loop, hp]
      rw [hunf]
      dsimp only
      refine ⟨by omega, ?_, ?_, ?_⟩
      · rw [ihok]
        constructor
        · rintro ⟨i, hi1, hi2, hiok⟩
          exact ⟨i, by omega, by omega, hiok⟩
        · rintro ⟨i, hi1, hi2, hiok⟩
          rcases Nat.eq_or_lt_of_le hi1 with rfl | hlt
          · exact absurd hiok (by simp [hp])
          · exact ⟨i, by omega, by omega, hiok⟩
      · intro hs
        obtain ⟨h1, hprobe, hearly, hsleeps⟩ := ihsucc hs
        refine ⟨by omega, ?_, ?_, ?_⟩
        · have heq : start +
              ((wait_for_ssh_loop probe delay (List.range' (start + 1) n)).attemptsMade + 1) - 1 =
              start + 1 + (wait_for_ssh_loop probe delay (List.range' (start + 1) n)).attemptsMade - 1 := by
            omega
          rw [heq]
          exact hprobe
        · intro i hi1 hi2
          rcases Nat.eq_or_lt_of_le hi1 with rfl | hlt
          · simp [hp]
          · exact hearly i (by omega) (by omega)
        · rw [hsleeps, Nat.add_sub_cancel]
          have h1' : (wait_for_ssh_loop probe delay (List.range' (start + 1) n)).attemptsMade =
              ((wait_for_ssh_loop probe delay (List.range' (start + 1) n)).attemptsMade - 1) + 1 := by
            omega
          conv_rhs => rw [h1']
          rw [List.replicate_succ]
      · intro hs
        obtain ⟨ha2, hsl⟩ := ihfail hs
        refine ⟨by omega, ?_⟩
        rw [hsl, List.replicate_succ]
    | sshFailed =>
      have hunf : wait_for_ssh_loop probe delay (start :: List.range' (start + 1) n) =
          ⟨(wait_for_ssh_loop probe delay (List.range' (start + 1) n)).success,
           (wait_for_ssh_loop probe delay (List.range' (start + 1) n)).attemptsMade + 1,
           delay :: (wait_for_ssh_loop probe delay (List.range' (start + 1) n)).sleeps⟩ := by
        simp [wait_for_ssh_loop, hp]
      rw [hunf]
      dsimp only
      refine ⟨by omega, ?_, ?_, ?_⟩
      · rw [ihok]
        constructor
        · rintro ⟨i, hi1, hi2, hiok⟩
          exact ⟨i, by omega, by omega, hiok⟩
        · rintro ⟨i, hi1, hi2, hiok⟩
          rcases Nat.eq_or_lt_of_le hi1 with rfl | hlt
          · exact absurd hiok (by simp [hp])
          · exact ⟨i, by omega, by omega, hiok⟩
      · intro hs
        obtain ⟨h1, hprobe, hearly, hsleeps⟩ := ihsucc hs
        refine ⟨by omega, ?_, ?_, ?_⟩
        · have heq : start +
              ((wait_for_ssh_loop probe delay (List.range' (start + 1) n)).attemptsMade + 1) - 1 =
              start + 1 + (wait_for_ssh_loop probe delay (List.range' (start + 1) n)).attemptsMade - 1 := by
            omega
          rw [heq]
          exact hprobe
        · intro i hi1 hi2
          rcases Nat.eq_or_lt_of_le hi1 with rfl | hlt
          · simp [hp]
          · exact hearly i (by omega) (by omega)
        · rw [hsleeps, Nat.add_sub_cancel]
          have h1' : (wait_for_ssh_loop probe delay (List.range' (start + 1) n)).attemptsMade =
              ((wait_for_ssh_loop probe delay (List.range' (start + 1) n)).attemptsMade - 1) + 1 := by
            omega
          conv_rhs => rw [h1']
          rw [List.replicate_succ]
      · intro hs
        obtain ⟨ha2, hsl⟩ := ihfail hs
        refine ⟨by omega, ?_⟩
        rw [hsl, List.replicate_succ]

/-- C7: for all positive `retries` and `delay`, `wait_for_ssh` makes at
most `retries` attempts, returns `True` exactly when some attempt
`1 ≤ i ≤ retries` succeeds — stopping at the first success, with the fixed
`delay` slept after each of the preceding failed attempts — and returns
`False` after all `retries` attempts fail, having slept the fixed `delay`
after every one of them; totality of the embedding witnesses that the loop
always terminates. -/
theorem C7_wait_for_ssh_retry_loop (probe : Nat → SshProbe) (retries delay : Nat)
    (hr : 0 < retries) (hd : 0 < delay) :
    (wait_for_ssh probe retries delay).attemptsMade ≤ retries ∧
    ((wait_for_ssh probe retries delay).success = true ↔
      ∃ i, 1 ≤ i ∧ i ≤ retries ∧ probe i = .sshOk) ∧
    ((wait_for_ssh probe retries delay).success = true →
      probe (wait_for_ssh probe retries delay).attemptsMade = .sshOk ∧
      (∀ i, 1 ≤ i → i < (wait_for_ssh probe retries delay).attemptsMade → probe i ≠ .sshOk) ∧
      (wait_for_ssh probe retries delay).sleeps =
        List.replicate ((wait_for_ssh probe retries delay).attemptsMade - 1) delay) ∧
    ((wait_for_ssh probe retries delay).success = false →
      (wait_for_ssh probe retries delay).attemptsMade = retries ∧
      (∀ i, 1 ≤ i → i ≤ retries → probe i ≠ .sshOk) ∧
      (wait_for_ssh probe retries delay).sleeps = List.replicate retries delay) := by
  unfold wait_for_ssh
  obtain ⟨ha, hok, hsucc, hfail⟩ := wait_for_ssh_loop_spec probe delay retries 1
  refine ⟨ha, ?_, ?_, ?_⟩
  · rw [hok]
    constructor
    · rintro ⟨i, h1, h2, h3⟩
      exact ⟨i, h1, by omega, h3⟩
    · rintro ⟨i, h1, h2, h3⟩
      exact ⟨i, h1, by omega, h3⟩
  · intro hs
    obtain ⟨h1, hprobe, hearly, hsleeps⟩ := hsucc hs
    refine ⟨?_, ?_, hsleeps⟩
    · have heq : 1 + (wait_for_ssh_loop probe delay (List.range' 1 retries)).attemptsMade - 1 =
          (wait_for_ssh_loop probe delay (List.range' 1 retries)).attemptsMade := by omega
      rwa [heq] at hprobe
    · intro i hi1 hi2
      exact hearly i hi1 (by omega)
  · intro hs
    obtain ⟨ha', hsl⟩ := hfail hs
    refine ⟨ha', ?_, hsl⟩
    intro i hi1 hi2 hiok
    have hcontra := hok.mpr ⟨i, hi1, by omega, hiok⟩
    rw [hs] at hcontra
    exact Bool.false_ne_true hcontra

/-- C7 witness: a concrete probe that succeeds on the second of three
attempts yields success after two attempts and one sleep of the fixed
delay. -/
theorem C7_witness :
    wait_for_ssh (fun i => if i = 2 then SshProbe.sshOk else SshProbe.portClosed) 3 10 =
      ⟨true, 2, [10]⟩ ∧
    (wait_for_ssh (fun i => if i = 2 then SshProbe.sshOk else SshProbe.portClosed) 3 10).attemptsMade ≤ 3 := by
  refine ⟨by rfl, ?_⟩
  exact (C7_wait_for_ssh_retry_loop
    (fun i => if i = 2 then SshProbe.sshOk else SshProbe.portClosed) 3 10
    (by decide) (by decide)).1

/-- C2 counterexample: with text-mode output and the user declining the
on-demand prompt, a spot attempt failing with
`InsufficientInstanceCapacity` is not retried — `launch_instance` raises
`CLIError("Launch cancelled.")` after a single `run_instances` call, so the
unconditional retry the claim states does not happen. -/
theorem C2_counterexample :
    launch_instance (fun _ => .error ⟨"InsufficientInstanceCapacity", "no capacity"⟩) false
        ⟨"g4dn.xlarge", true, "aws-bootstrap-key", "us-west-2", "aws-bootstrap-ssh", 100,
         "aws-bootstrap-g4dn", true, false, none, none⟩ "ami-1" "sg-1" =
      (.error (.cli .launchCancelled),
       [launchParams
         ⟨"g4dn.xlarge", true, "aws-bootstrap-key", "us-west-2", "aws-bootstrap-ssh", 100,
          "aws-bootstrap-g4dn", true, false, none, none⟩ "ami-1" "sg-1"]) ∧
    (launch_instance (fun _ => .error ⟨"InsufficientInstanceCapacity", "no capacity"⟩) false
        ⟨"g4dn.xlarge", true, "aws-bootstrap-key", "us-west-2", "aws-bootstrap-ssh", 100,
         "aws-bootstrap-g4dn", true, false, none, none⟩ "ami-1" "sg-1").2.length = 1 := by
  constructor
  · rfl
  · rfl

/-- C2 (amended): when a spot `run_instances` fails with
`InsufficientInstanceCapacity` or `SpotMaxPriceTooLow`, `launch_instance`
retries the identical launch as on-demand (`InstanceMarketOptions`
removed) when the output is non-text or the user confirms the prompt, and
raises `CLIError("Launch cancelled.")` when the user declines; a quota
error code (`MaxSpotInstanceCountExceeded` or `VcpuLimitExceeded`) on
either attempt raises the quota `CLIError`,
`InsufficientInstanceCapacity` on the on-demand retry raises a `CLIError`,
and any other client error propagates unchanged. -/
theorem C2_amended_launch_instance_error_handling
    (run : RunInstancesParams → Except AwsError LaunchedInstance)
    (rc : Bool) (config : LaunchConfig) (amiId sgId : String) :
    (∀ e, run (launchParams config amiId sgId) = .error e →
      (e.code = "MaxSpotInstanceCountExceeded" ∨ e.code = "VcpuLimitExceeded") →
      launch_instance run rc config amiId sgId =
        (.error (.cli (raise_quota_error e.code config)), [launchParams config amiId sgId])) ∧
    (∀ e, run (launchParams config amiId sgId) = .error e →
      (e.code = "InsufficientInstanceCapacity" ∨ e.code = "SpotMaxPriceTooLow") →
      config.spot = true → rc = false →
      launch_instance run rc config amiId sgId =
        (.error (.cli .launchCancelled), [launchParams config amiId sgId])) ∧
    (∀ e, run (launchParams config amiId sgId) = .error e →
      (e.code = "InsufficientInstanceCapacity" ∨ e.code = "SpotMaxPriceTooLow") →
      config.spot = true → rc = true →
      (launch_instance run rc config amiId sgId).2 =
        [launchParams config amiId sgId,
         { launchParams config amiId sgId with marketOptionsSpot := false }] ∧
      (∀ inst,
        run { launchParams config amiId sgId with marketOptionsSpot := false } = .ok inst →
        (launch_instance run rc config amiId sgId).1 = .ok inst) ∧
      (∀ e2,
        run { launchParams config amiId sgId with marketOptionsSpot := false } = .error e2 →
        ((e2.code = "MaxSpotInstanceCountExceeded" ∨ e2.code = "VcpuLimitExceeded") →
          (launch_instance run rc config amiId sgId).1 =
            .error (.cli (raise_quota_error e2.code config))) ∧
        (e2.code = "InsufficientInstanceCapacity" →
          (launch_instance run rc config amiId sgId).1 =
            .error (.cli (.insufficientCapacityBoth config.instance_type config.region))) ∧
        (e2.code ≠ "MaxSpotInstanceCountExceeded" → e2.code ≠ "VcpuLimitExceeded" →
          e2.code ≠ "InsufficientInstanceCapacity" →
          (launch_instance run rc config amiId sgId).1 = .error (.aws e2)))) ∧
    (∀ e, run (launchParams config amiId sgId) = .error e →
      e.code = "InsufficientInstanceCapacity" → config.spot = false →
      launch_instance run rc config amiId sgId =
        (.error (.cli (.insufficientCapacity config.instance_type config.region)),
         [launchParams config amiId sgId])) ∧
    (∀ e, run (launchParams config amiId sgId) = .error e →
      e.code ≠ "MaxSpotInstanceCountExceeded" → e.code ≠ "VcpuLimitExceeded" →
      e.code ≠ "InsufficientInstanceCapacity" → e.code ≠ "SpotMaxPriceTooLow" →
      launch_instance run rc config amiId sgId =
        (.error (.aws e), [launchParams config amiId sgId])) := by
  refine ⟨?_, ?_, ?_, ?_, ?_⟩
  · intro e he hq
    unfold launch_instance
    dsimp only
    rw [he]
    dsimp only
    rw [if_pos hq]
  · intro e he hcode hspot hrc
    have hne1 : ¬(e.code = "MaxSpotInstanceCountExceeded" ∨ e.code = "VcpuLimitExceeded") := by
      rcases hcode with h | h <;> simp [h]
    unfold launch_instance
    dsimp only
    rw [he]
    dsimp only
    rw [if_neg hne1, if_pos ⟨hcode, hspot⟩, if_neg (by simp [hrc])]
  · intro e he hcode hspot hrc
    have hne1 : ¬(e.code = "MaxSpotInstanceCountExceeded" ∨ e.code = "VcpuLimitExceeded") := by
      rcases hcode with h | h <;> simp [h]
    unfold launch_instance
    dsimp only
    rw [he]
    dsimp only
    rw [if_neg hne1, if_pos ⟨hcode, hspot⟩, if_pos hrc]
    cases hrun2 : run { launchParams config amiId sgId with marketOptionsSpot := false } with
    | ok inst2 =>
      refine ⟨rfl, ?_, ?_⟩
      · intro inst hinst
        injection hinst with h2
        rw [h2]
      · intro e2 he2
        simp at he2
    | error e2 =>
      refine ⟨?_, ?_, ?_⟩
      · dsimp only
        split
        · rfl
        · split <;> rfl
      · intro inst hinst
        simp at hinst
      · intro e2' he2'
        injection he2' with h2
        subst h2
        refine ⟨?_, ?_, ?_⟩
        · intro hq2
          dsimp only
          rw [if_pos hq2]
        · intro hcap2
          have hne2 : ¬(e2.code = "MaxSpotInstanceCountExceeded" ∨ e2.code = "VcpuLimitExceeded") := by
            simp [hcap2]
          dsimp only
          rw [if_neg hne2, if_pos hcap2]
        · intro hn1 hn2 hn3
          dsimp only
          rw [if_neg (by simp [hn1, hn2]), if_neg hn3]
  · intro e he hcap hspot
    have hne1 : ¬(e.code = "MaxSpotInstanceCountExceeded" ∨ e.code = "VcpuLimitExceeded") := by
      simp [hcap]
    have hne2 : ¬((e.code = "InsufficientInstanceCapacity" ∨ e.code = "SpotMaxPriceTooLow")
        ∧ config.spot = true) := by
      simp [hspot]
    unfold launch_instance
    dsimp only
    rw [he]
    dsimp only
    rw [if_neg hne1, if_neg hne2, if_pos hcap]
  · intro e he hn1 hn2 hn3 hn4
    have hne1 : ¬(e.code = "MaxSpotInstanceCountExceeded" ∨ e.code = "VcpuLimitExceeded") := by
      simp [hn1, hn2]
    have hne2 : ¬((e.code = "InsufficientInstanceCapacity" ∨ e.code = "SpotMaxPriceTooLow")
        ∧ config.spot = true) := by
      simp [hn3, hn4]
    unfold launch_instance
    dsimp only
    rw [he]
    dsimp only
    rw [if_neg hne1, if_neg hne2, if_neg hn3]

/-- C2 witness: a concrete spot attempt failing for capacity, confirmed for
retry, is rerun as on-demand and succeeds. -/
theorem C2_witness :
    (launch_instance
        (fun q => if q.marketOptionsSpot then .error ⟨"InsufficientInstanceCapacity", "m"⟩
                  else .ok ⟨"i-0123"⟩) true
        ⟨"g4dn.xlarge", true, "aws-bootstrap-key", "us-west-2", "aws-bootstrap-ssh", 100,
         "aws-bootstrap-g4dn", true, false, none, none⟩ "ami-1" "sg-1").2 =
      [launchParams
         ⟨"g4dn.xlarge", true, "aws-bootstrap-key", "us-west-2", "aws-bootstrap-ssh", 100,
          "aws-bootstrap-g4dn", true, false, none, none⟩ "ami-1" "sg-1",
       { launchParams
           ⟨"g4dn.xlarge", true, "aws-bootstrap-key", "us-west-2", "aws-bootstrap-ssh", 100,
            "aws-bootstrap-g4dn", true, false, none, none⟩ "ami-1" "sg-1" with
         marketOptionsSpot := false }] ∧
    (launch_instance
        (fun q => if q.marketOptionsSpot then .error ⟨"InsufficientInstanceCapacity", "m"⟩
                  else .ok ⟨"i-0123"⟩) true
        ⟨"g4dn.xlarge", true, "aws-bootstrap-key", "us-west-2", "aws-bootstrap-ssh", 100,
         "aws-bootstrap-g4dn", true, false, none, none⟩ "ami-1" "sg-1").1 = .ok ⟨"i-0123"⟩ := by
  have h := (C2_amended_launch_instance_error_handling
    (fun q => if q.marketOptionsSpot then .error ⟨"InsufficientInstanceCapacity", "m"⟩
              else .ok ⟨"i-0123"⟩) true
    ⟨"g4dn.xlarge", true, "aws-bootstrap-key", "us-west-2", "aws-bootstrap-ssh", 100,
     "aws-bootstrap-g4dn", true, false, none, none⟩ "ami-1" "sg-1").2.2.1
    ⟨"InsufficientInstanceCapacity", "m"⟩ rfl (Or.inl rfl) rfl rfl
  exact ⟨h.1, h.2.1 ⟨"i-0123"⟩ rfl⟩

/-- C5: `ensure_security_group` raises a `CLIError` when no default VPC
exists; when a security group with the given name already exists in the
default VPC it returns that group's `GroupId` issuing no write call; and
otherwise it creates a tagged group in the default VPC, authorizes TCP
ingress on the given SSH port from `0.0.0.0/0`, and returns the new
`GroupId`. -/
theorem C5_ensure_security_group_find_or_create (env : SgEnv) (name tagValue : String)
    (sshPort : Nat) :
    ((∀ v ∈ env.vpcs, v.isDefault = false) →
      ensure_security_group env name tagValue sshPort = .error .noDefaultVpc) ∧
    (∀ vpc rest, env.vpcs.filter Vpc.isDefault = vpc :: rest →
      ((∃ g ∈ env.groups, (g.groupName == name && g.vpcId == vpc.vpcId) = true) →
        ∃ g ∈ env.groups, (g.groupName == name && g.vpcId == vpc.vpcId) = true ∧
          ensure_security_group env name tagValue sshPort = .ok (g.groupId, [])) ∧
      ((∀ g ∈ env.groups, (g.groupName == name && g.vpcId == vpc.vpcId) = false) →
        ensure_security_group env name tagValue sshPort =
          .ok (env.freshGroupId,
            [.createSecurityGroup name "SSH access for aws-bootstrap-g4dn instances" vpc.vpcId
               [⟨"created-by", tagValue⟩, ⟨"Name", name⟩],
             .authorizeIngress env.freshGroupId "tcp" sshPort sshPort "0.0.0.0/0"]))) := by
  constructor
  · intro h
    have hnil : env.vpcs.filter Vpc.isDefault = [] := by
      rw [List.filter_eq_nil]
      intro v hv
      simp [h v hv]
    unfold ensure_security_group
    rw [hnil]
  · intro vpc rest hvpc
    constructor
    · intro hex
      cases hg : env.groups.filter (fun g => g.groupName == name && g.vpcId == vpc.vpcId) with
      | nil =>
        obtain ⟨g, hgmem, hgp⟩ := hex
        have := List.filter_eq_nil.mp hg g hgmem
        simp [hgp] at this
      | cons g grest =>
        have hgin : g ∈ env.groups.filter (fun g => g.groupName == name && g.vpcId == vpc.vpcId) := by
          rw [hg]
          exact List.mem_cons_self _ _
        obtain ⟨hgmem, hgp⟩ := List.mem_filter.mp hgin
        refine ⟨g, hgmem, hgp, ?_⟩
        unfold ensure_security_group
        rw [hvpc]
        dsimp only
        rw [hg]
    · intro hall
      have hnil : env.groups.filter (fun g => g.groupName == name && g.vpcId == vpc.vpcId) = [] := by
        rw [List.filter_eq_nil]
        intro g hgmem
        simp [hall g hgmem]
      unfold ensure_security_group
      rw [hvpc]
      dsimp only
      rw [hnil]

/-- C5 witness: with one default VPC and no existing group, a concrete call
creates the tagged group and authorizes SSH ingress on port 22. -/
theorem C5_witness :
    ensure_security_group ⟨[⟨"vpc-1", true⟩], [], "sg-new"⟩ "aws-bootstrap-ssh"
        "aws-bootstrap-g4dn" 22 =
      .ok ("sg-new",
        [.createSecurityGroup "aws-bootstrap-ssh"
           "SSH access for aws-bootstrap-g4dn instances" "vpc-1"
           [⟨"created-by", "aws-bootstrap-g4dn"⟩, ⟨"Name", "aws-bootstrap-ssh"⟩],
         .authorizeIngress "sg-new" "tcp" 22 22 "0.0.0.0/0"]) := by
  exact ((C5_ensure_security_group_find_or_create ⟨[⟨"vpc-1", true⟩], [], "sg-new"⟩
    "aws-bootstrap-ssh" "aws-bootstrap-g4dn" 22).2 ⟨"vpc-1", true⟩ [] rfl).2
    (by intro g hg; simp at hg)

theorem find_orphan_ebs_volumes_mem (catalog : List Ec2Volume) (tagValue : String)
    (live : List String) (v : OrphanVolume) :
    v ∈ find_orphan_ebs_volumes catalog false tagValue live ↔
      ∃ vol ∈ catalog,
        hasTag vol.tags "created-by" tagValue = true ∧
        vol.state = "available" ∧
        lastTagValue vol.tags "aws-bootstrap-instance" ≠ "" ∧
        live.contains (lastTagValue vol.tags "aws-bootstrap-instance") = false ∧
        v = ⟨vol.volumeId, vol.size, vol.state,
             lastTagValue vol.tags "aws-bootstrap-instance"⟩ := by
  unfold find_orphan_ebs_volumes
  rw [if_neg (by simp)]
  rw [List.mem_filterMap]
  constructor
  · rintro ⟨vol, hvolin, hf⟩
    obtain ⟨hmem, hp⟩ := List.mem_filter.mp hvolin
    obtain ⟨htag, hstate⟩ := Bool.and_eq_true_iff.mp hp
    by_cases hc : (lastTagValue vol.tags "aws-bootstrap-instance" != "" &&
        !live.contains (lastTagValue vol.tags "aws-bootstrap-instance")) = true
    · rw [if_pos hc] at hf
      injection hf with hf
      obtain ⟨hlin, hlive⟩ := Bool.and_eq_true_iff.mp hc
      refine ⟨vol, hmem, htag, by simpa using hstate, ?_, ?_, hf.symm⟩
      · simpa using hlin
      · simpa using hlive
    · rw [if_neg hc] at hf
      exact absurd hf (by simp)
  · rintro ⟨vol, hmem, htag, hstate, hlin, hlive, rfl⟩
    refine ⟨vol, ?_, ?_⟩
    · exact List.mem_filter.mpr ⟨hmem, by simp [htag, hstate]⟩
    · rw [if_pos (by simp [hlin]; simpa using hlive)]

/-- C6: `find_orphan_ebs_volumes` returns exactly the `created-by`-tagged
volumes in `available` state whose `aws-bootstrap-instance` tag is
non-empty and not among the live instance ids; every returned volume is in
`available` state, so an `in-use` volume is never reported as an orphan. -/
theorem C6_find_orphan_ebs_volumes_exact (catalog : List Ec2Volume) (tagValue : String)
    (live : List String) :
    (∀ v, v ∈ find_orphan_ebs_volumes catalog false tagValue live ↔
      ∃ vol ∈ catalog,
        hasTag vol.tags "created-by" tagValue = true ∧
        vol.state = "available" ∧
        lastTagValue vol.tags "aws-bootstrap-instance" ≠ "" ∧
        live.contains (lastTagValue vol.tags "aws-bootstrap-instance") = false ∧
        v = ⟨vol.volumeId, vol.size, vol.state,
             lastTagValue vol.tags "aws-bootstrap-instance"⟩) ∧
    (∀ v ∈ find_orphan_ebs_volumes catalog false tagValue live, v.state = "available") := by
  refine ⟨find_orphan_ebs_volumes_mem catalog tagValue live, ?_⟩
  intro v hv
  obtain ⟨vol, _, _, hstate, _, _, rfl⟩ :=
    (find_orphan_ebs_volumes_mem catalog tagValue live v).mp hv
  exact hstate

/-- C6 witness: with one available orphan volume and one in-use volume whose
tagged instance is equally dead, only the available one is reported. -/
theorem C6_witness :
    (OrphanVolume.mk "vol-1" 50 "available" "i-dead") ∈
      find_orphan_ebs_volumes
        [⟨"vol-1", 50, "available", "us-west-2a", [],
          [⟨"created-by", "aws-bootstrap-g4dn"⟩, ⟨"aws-bootstrap-instance", "i-dead"⟩]⟩,
         ⟨"vol-2", 60, "in-use", "us-west-2a", [⟨some "/dev/sdf"⟩],
          [⟨"created-by", "aws-bootstrap-g4dn"⟩, ⟨"aws-bootstrap-instance", "i-dead"⟩]⟩]
        false "aws-bootstrap-g4dn" ["i-live"] ∧
    ∀ v ∈ find_orphan_ebs_volumes
        [⟨"vol-1", 50, "available", "us-west-2a", [],
          [⟨"created-by", "aws-bootstrap-g4dn"⟩, ⟨"aws-bootstrap-instance", "i-dead"⟩]⟩,
         ⟨"vol-2", 60, "in-use", "us-west-2a", [⟨some "/dev/sdf"⟩],
          [⟨"created-by", "aws-bootstrap-g4dn"⟩, ⟨"aws-bootstrap-instance", "i-dead"⟩]⟩]
        false "aws-bootstrap-g4dn" ["i-live"], v.state = "available" := by
  refine ⟨?_, (C6_find_orphan_ebs_volumes_exact _ _ _).2⟩
  exact ((C6_find_orphan_ebs_volumes_exact _ _ _).1 _).mpr (by decide)

theorem ensure_security_group_ok_actions (env : SgEnv) (name tagValue : String)
    (sshPort : Nat) (sgId : String) (actions : List SgAction)
    (h : ensure_security_group env name tagValue sshPort = .ok (sgId, actions)) :
    actions = [] ∨
    ∃ vpcId, actions =
      [.createSecurityGroup name "SSH access for aws-bootstrap-g4dn instances" vpcId
         [⟨"created-by", tagValue⟩, ⟨"Name", name⟩],
       .authorizeIngress env.freshGroupId "tcp" sshPort sshPort "0.0.0.0/0"] := by
  unfold ensure_security_group at h
  cases hv : env.vpcs.filter Vpc.isDefault with
  | nil =>
    rw [hv] at h
    exact absurd h (by simp)
  | cons vpc rest =>
    rw [hv] at h
    dsimp only at h
    cases hg : env.groups.filter (fun g => g.groupName == name && g.vpcId == vpc.vpcId) with
    | cons g grest =>
      rw [hg] at h
      injection h with hpair
      left
      exact (congrArg Prod.snd hpair).symm
    | nil =>
      rw [hg] at h
      injection h with hpair
      right
      exact ⟨vpc.vpcId, (congrArg Prod.snd hpair).symm⟩

/-- C3: every resource the tool creates carries a `created-by` tag with the
tool's tag value — the `run_instances` request, the
`create_security_group` request, the `import_key_pair` request (with the
literal `aws-bootstrap-g4dn`), and the `create_volume` request — and every
discovery operation filters on that tag, so each returned record
corresponds to a catalog resource whose `created-by` tag matches. -/
theorem C3_created_by_tagging_invariant :
    (∀ (config : LaunchConfig) (amiId sgId : String),
      Tag.mk "created-by" config.tag_value ∈ (launchParams config amiId sgId).tags) ∧
    (∀ (env : SgEnv) (name tagValue : String) (sshPort : Nat) (sgId : String)
        (actions : List SgAction),
      ensure_security_group env name tagValue sshPort = .ok (sgId, actions) →
      ∀ gn d vp tags, SgAction.createSecurityGroup gn d vp tags ∈ actions →
        Tag.mk "created-by" tagValue ∈ tags) ∧
    (∀ (describeResult : Except AwsError String) (keyName newName : String)
        (reqs : List ImportKeyPairParams),
      import_key_pair describeResult keyName = .ok (newName, reqs) →
      ∀ r ∈ reqs, Tag.mk "created-by" "aws-bootstrap-g4dn" ∈ r.tags) ∧
    (∀ (sizeGb : Nat) (az tagValue instanceId : String),
      Tag.mk "created-by" tagValue ∈
        (create_ebs_volume_request sizeGb az tagValue instanceId).tags) ∧
    (∀ (reservations : List (List Ec2Instance)) (tagValue : String),
      ∀ info ∈ find_tagged_instances reservations tagValue,
        ∃ inst ∈ reservations.flatten,
          hasTag inst.tags "created-by" tagValue = true ∧
          info.instanceId = inst.instanceId) ∧
    (∀ (catalog : List Ec2Volume) (apiError : Bool) (instanceId tagValue : String),
      ∀ v ∈ find_ebs_volumes_for_instance catalog apiError instanceId tagValue,
        ∃ vol ∈ catalog,
          hasTag vol.tags "created-by" tagValue = true ∧ v.volumeId = vol.volumeId) ∧
    (∀ (catalog : List Ec2Volume) (tagValue : String) (live : List String),
      ∀ v ∈ find_orphan_ebs_volumes catalog false tagValue live,
        ∃ vol ∈ catalog,
          hasTag vol.tags "created-by" tagValue = true ∧ v.volumeId = vol.volumeId) := by
  refine ⟨?_, ?_, ?_, ?_, ?_, ?_, ?_⟩
  · intro config amiId sgId
    simp [launchParams]
  · intro env name tagValue sshPort sgId actions h gn d vp tags hmem
    rcases ensure_security_group_ok_actions env name tagValue sshPort sgId actions h with
      rfl | ⟨vpcId, rfl⟩
    · simp at hmem
    · rcases List.mem_cons.mp hmem with heq | hmem2
      · injection heq with h1 h2 h3 h4
        rw [h4]
        simp
      · rcases List.mem_cons.mp hmem2 with heq | h3
        · exact absurd heq (by simp)
        · simp at h3
  · intro describeResult keyName newName reqs h r hr
    unfold import_key_pair at h
    cases describeResult with
    | ok existingName =>
      dsimp only at h
      injection h with hpair
      have : reqs = [] := (congrArg Prod.snd hpair).symm
      subst this
      simp at hr
    | error e =>
      dsimp only at h
      by_cases hc : e.code = "InvalidKeyPair.NotFound"
      · rw [if_pos hc] at h
        injection h with hpair
        have : reqs = [{ keyName := keyName, tags := [⟨"created-by", "aws-bootstrap-g4dn"⟩] }] :=
          (congrArg Prod.snd hpair).symm
        subst this
        rcases List.mem_singleton.mp hr with rfl
        simp
      · rw [if_neg hc] at h
        exact absurd h (by simp)
  · intro sizeGb az tagValue instanceId
    simp [create_ebs_volume_request]
  · intro reservations tagValue info hinfo
    unfold find_tagged_instances awsDescribeInstances at hinfo
    obtain ⟨inst, hin, heq⟩ := List.mem_map.mp hinfo
    obtain ⟨l, hl, hinstl⟩ := List.mem_flatten.mp hin
    obtain ⟨res, hres, rfl⟩ := List.mem_map.mp hl
    obtain ⟨hinres, hpred⟩ := List.mem_filter.mp hinstl
    obtain ⟨htag, _⟩ := Bool.and_eq_true_iff.mp hpred
    refine ⟨inst, List.mem_flatten.mpr ⟨res, hres, hinres⟩, htag, ?_⟩
    rw [← heq]
  · intro catalog apiError instanceId tagValue v hv
    unfold find_ebs_volumes_for_instance at hv
    by_cases hapi : apiError = true
    · rw [if_pos hapi] at hv
      simp at hv
    · rw [if_neg hapi] at hv
      obtain ⟨vol, hin, heq⟩ := List.mem_map.mp hv
      obtain ⟨hmem, hpred⟩ := List.mem_filter.mp hin
      obtain ⟨_, htag⟩ := Bool.and_eq_true_iff.mp hpred
      refine ⟨vol, hmem, htag, ?_⟩
      rw [← heq]
  · intro catalog tagValue live v hv
    obtain ⟨vol, hmem, htag, _, _, _, rfl⟩ :=
      (find_orphan_ebs_volumes_mem catalog tagValue live v).mp hv
    exact ⟨vol, hmem, htag, rfl⟩

/-- C3 witness: concrete checks that the launch request is tagged and that a
discovered instance carries the matching `created-by` tag. -/
theorem C3_witness :
    Tag.mk "created-by" "aws-bootstrap-g4dn" ∈
      (launchParams
        ⟨"g4dn.xlarge", true, "aws-bootstrap-key", "us-west-2", "aws-bootstrap-ssh", 100,
         "aws-bootstrap-g4dn", true, false, none, none⟩ "ami-1" "sg-1").tags ∧
    ∃ inst ∈ ([[⟨"i-abc123", "running", "g4dn.xlarge", some "1.2.3.4", "2025-01-01",
                 none, "us-west-2a",
                 [⟨"Name", "aws-bootstrap-g4dn.xlarge"⟩, ⟨"created-by", "aws-bootstrap-g4dn"⟩]⟩]] :
          List (List Ec2Instance)).flatten,
      hasTag inst.tags "created-by" "aws-bootstrap-g4dn" = true ∧
      "i-abc123" = inst.instanceId := by
  constructor
  · exact C3_created_by_tagging_invariant.1
      ⟨"g4dn.xlarge", true, "aws-bootstrap-key", "us-west-2", "aws-bootstrap-ssh", 100,
       "aws-bootstrap-g4dn", true, false, none, none⟩ "ami-1" "sg-1"
  · have h := C3_created_by_tagging_invariant.2.2.2.2.1
      [[⟨"i-abc123", "running", "g4dn.xlarge", some "1.2.3.4", "2025-01-01",
         none, "us-west-2a",
         [⟨"Name", "aws-bootstrap-g4dn.xlarge"⟩, ⟨"created-by", "aws-bootstrap-g4dn"⟩]⟩]]
      "aws-bootstrap-g4dn"
      ⟨"i-abc123", "aws-bootstrap-g4dn.xlarge", "running", "g4dn.xlarge", "1.2.3.4",
       "2025-01-01", "on-demand", "us-west-2a"⟩ (by decide)
    simpa using h

/-- C8: the quota request command raises a `CLIError` and submits nothing
when the desired value is at most the current quota value; when the desired
value exceeds the current one and the user confirms (the `--yes` flag or an
accepted prompt), it submits exactly one increase for the quota code
selected by the `(family, type)` pair, a `ResourceAlreadyExistsException`
is translated into the already-pending `CLIError`, and a successful
response is returned with the family and type attached. -/
theorem C8_quota_request_gating
    (getQuotaApi : String → Except AwsError QuotaInfo)
    (requestApi : String → Rat → Except AwsError RequestedQuota)
    (isText yes userConfirm : Bool) (family quotaType : String)
    (desiredValue : Rat) (quotaCode : String) (current : QuotaInfo)
    (hcode : quotaCodeFor family quotaType = some quotaCode)
    (hget : get_quota getQuotaApi quotaCode = .ok current) :
    (desiredValue ≤ current.value →
      (∃ e, (quota_request getQuotaApi requestApi isText yes userConfirm
          family quotaType desiredValue).1 = .error (.cli e)) ∧
      (quota_request getQuotaApi requestApi isText yes userConfirm
          family quotaType desiredValue).2 = []) ∧
    (current.value < desiredValue → (yes = true ∨ userConfirm = true) →
      (isText = true ∨ yes = true) →
      (quota_request getQuotaApi requestApi isText yes userConfirm
          family quotaType desiredValue).2 = [(quotaCode, desiredValue)] ∧
      (∀ m, requestApi quotaCode desiredValue =
          .error ⟨"ResourceAlreadyExistsException", m⟩ →
        (quota_request getQuotaApi requestApi isText yes userConfirm
            family quotaType desiredValue).1 =
          .error (.cli .quotaRequestAlreadyPending)) ∧
      (∀ req, requestApi quotaCode desiredValue = .ok req →
        (quota_request getQuotaApi requestApi isText yes userConfirm
            family quotaType desiredValue).1 =
          .ok (some ⟨req.id, req.status, req.quotaCode, req.quotaName,
                     req.desiredValue, req.caseId, quotaType, family⟩))) := by
  constructor
  · intro hle
    unfold quota_request
    by_cases hflag : (!isText && !yes) = true
    · rw [if_pos hflag]
      exact ⟨⟨_, rfl⟩, rfl⟩
    · rw [if_neg hflag, hcode]
      dsimp only
      rw [hget]
      dsimp only
      rw [if_pos hle]
      exact ⟨⟨_, rfl⟩, rfl⟩
  · intro hlt hconf hpass
    have hflag : ¬((!isText && !yes) = true) := by
      rcases hpass with h | h <;> simp [h]
    have hnle : ¬(desiredValue ≤ current.value) := not_le.mpr hlt
    have hcf : ¬((!yes && !userConfirm) = true) := by
      rcases hconf with h | h <;> simp [h]
    unfold quota_request
    rw [if_neg hflag, hcode]
    dsimp only
    rw [hget]
    dsimp only
    rw [if_neg hnle, if_neg hcf]
    unfold request_quota_increase
    refine ⟨?_, ?_, ?_⟩
    · cases hreq : requestApi quotaCode desiredValue with
      | ok req => rfl
      | error e =>
        dsimp only
        split <;> rfl
    · intro m hm
      rw [hm]
      dsimp only
      rw [if_neg (by simp), if_pos rfl]
    · intro req hreq
      rw [hreq]

/-- C8 witness: with a current quota of 8 vCPUs, a confirmed request for 16
on the gvt spot quota submits exactly one increase for `L-3819A6DF`, and a
duplicate-request error is translated to the already-pending `CLIError`. -/
theorem C8_witness :
    (quota_request (fun _ => .ok ⟨"L-3819A6DF", "All G and VT Spot Instance Requests", 8⟩)
        (fun _ _ => .error ⟨"ResourceAlreadyExistsException", "dup"⟩)
        true true false "gvt" "spot" 16).2 = [("L-3819A6DF", 16)] ∧
    (quota_request (fun _ => .ok ⟨"L-3819A6DF", "All G and VT Spot Instance Requests", 8⟩)
        (fun _ _ => .error ⟨"ResourceAlreadyExistsException", "dup"⟩)
        true true false "gvt" "spot" 16).1 = .error (.cli .quotaRequestAlreadyPending) := by
  have h := (C8_quota_request_gating
    (fun _ => .ok ⟨"L-3819A6DF", "All G and VT Spot Instance Requests", 8⟩)
    (fun _ _ => .error ⟨"ResourceAlreadyExistsException", "dup"⟩)
    true true false "gvt" "spot" 16 "L-3819A6DF"
    ⟨"L-3819A6DF", "All G and VT Spot Instance Requests", 8⟩
    (by decide) rfl).2 (by norm_num) (Or.inl rfl) (Or.inl rfl)
  exact ⟨h.1, h.2.1 "dup" rfl⟩

/-- C1 counterexample: a successful launch with `--ebs-storage 50` (no
dry-run, public IP assigned, SSH reachable, setup script present) attaches
the EBS data volume before running the remote setup script — the attach
event sits at index 6 of the trace and the setup event at index 8 — so the
claimed order (setup, then attach) does not hold on the code. -/
theorem C1_counterexample :
    launch ⟨"g4dn.xlarge", true, "aws-bootstrap-key", "us-west-2", "aws-bootstrap-ssh", 100,
        "aws-bootstrap-g4dn", true, false, some 50, none⟩ true (some "1.2.3.4") true true =
      .ok [.amiLookup, .importKeyPair, .ensureSecurityGroup, .launchInstance,
           .waitInstanceReady, .createEbsVolume, .attachEbsVolume, .waitForSsh,
           .runRemoteSetup, .mountEbsVolume, .addSshHost] ∧
    [LaunchEvent.amiLookup, .importKeyPair, .ensureSecurityGroup, .launchInstance,
     .waitInstanceReady, .createEbsVolume, .attachEbsVolume, .waitForSsh,
     .runRemoteSetup, .mountEbsVolume, .addSshHost].indexOf LaunchEvent.attachEbsVolume <
    [LaunchEvent.amiLookup, .importKeyPair, .ensureSecurityGroup, .launchInstance,
     .waitInstanceReady, .createEbsVolume, .attachEbsVolume, .waitForSsh,
     .runRemoteSetup, .mountEbsVolume, .addSshHost].indexOf LaunchEvent.runRemoteSetup := by
  exact ⟨rfl, by decide⟩

/-- C1 (amended): every successful launch invocation (no dry-run, SSH key
present, EBS options not conflicting and non-degenerate, public IP
assigned, SSH reachable) performs its steps in this order: AMI lookup, SSH
key import, security-group ensure, instance launch, wait for the instance
to be ready; then, when an EBS data volume was requested, create it (or
validate and tag an existing one) and attach it; then wait for SSH; then
optionally run the remote setup script; then mount the attached data
volume; and finally record an SSH config alias. -/
theorem C1_amended_launch_step_order (config : LaunchConfig) (ip : String)
    (setupScriptExists : Bool)
    (hdry : config.dry_run = false)
    (hexcl : ¬(config.ebs_storage.isSome = true ∧ config.ebs_volume_id.isSome = true))
    (hstor : ∀ n, config.ebs_storage = some n → n ≠ 0)
    (hvol : ∀ s, config.ebs_volume_id = some s → s ≠ "") :
    launch config true (some ip) true setupScriptExists =
      .ok ([.amiLookup, .importKeyPair, .ensureSecurityGroup, .launchInstance,
            .waitInstanceReady] ++
        (if config.ebs_storage.isSome then [.createEbsVolume, .attachEbsVolume]
         else if config.ebs_volume_id.isSome then
           [.validateEbsVolume, .tagEbsVolume, .attachEbsVolume]
         else []) ++
        [.waitForSsh] ++
        (if config.run_setup && setupScriptExists then [.runRemoteSetup] else []) ++
        (if config.ebs_storage.isSome || config.ebs_volume_id.isSome then
           [.mountEbsVolume] else []) ++
        [.addSshHost]) := by
  rcases hs : config.ebs_storage with _ | n <;> rcases hv : config.ebs_volume_id with _ | s
  · simp [launch, hs, hv, hdry, natOptTruthy, strOptTruthy]
  · have hs' : s ≠ "" := hvol s hv
    simp [launch, hs, hv, hdry, natOptTruthy, strOptTruthy, hs']
  · have hn : n ≠ 0 := hstor n hs
    simp [launch, hs, hv, hdry, natOptTruthy, strOptTruthy, hn]
  · exact absurd ⟨by simp [hs], by simp [hv]⟩ hexcl

/-- C1 witness: a plain successful launch (no EBS options, setup script
present) performs lookup, key import, security group, launch, readiness
wait, SSH wait, remote setup and alias recording in order. -/
theorem C1_witness :
    launch ⟨"g4dn.xlarge", true, "aws-bootstrap-key", "us-west-2", "aws-bootstrap-ssh", 100,
        "aws-bootstrap-g4dn", true, false, none, none⟩ true (some "1.2.3.4") true true =
      .ok [.amiLookup, .importKeyPair, .ensureSecurityGroup, .launchInstance,
           .waitInstanceReady, .waitForSsh, .runRemoteSetup, .addSshHost] := by
  have h := C1_amended_launch_step_order
    ⟨"g4dn.xlarge", true, "aws-bootstrap-key", "us-west-2", "aws-bootstrap-ssh", 100,
     "aws-bootstrap-g4dn", true, false, none, none⟩ "1.2.3.4" true rfl
    (by simp) (by intro n hn; simp at hn) (by intro s hs; simp at hs)
  simpa using h

end AwsBootstrap
